import Mathlib

/-!
Verification of the Time-Traveler Codex content service
(`src/main.py`, `src/schemas.py`).

The service is a thin HTTP layer over a document store with six
collections: era, project, skill, achievement, profile, styles.
We embed documents as association lists of string keys to JSON-like
values, the store as a record of six collections, and each endpoint
body as a Lean function over an optional store handle (the handle is
`none` when the database connection string is absent).
-/

/-- A JSON-like document value: strings, integers, decimal numbers
(embedded as rationals), arrays and nested objects. -/
inductive Val where
  | str : String → Val
  | int : Int → Val
  | rat : Rat → Val
  | list : List Val → Val
  | obj : List (String × Val) → Val

/-- A document is an ordered mapping from string keys to values,
mirroring a Python dict (keys unique, insertion-ordered). -/
def Doc : Type := List (String × Val)

/-- Look up a key in a document. -/
def Doc.get (d : Doc) (k : String) : Option Val :=
  (List.find? (fun p => p.1 = k) d).map (fun p => p.2)

/-- Python dict assignment `d[k] = v`: replace the value in place if the
key exists (keeping its position), otherwise append the pair. -/
def Doc.set : Doc → String → Val → Doc
  | [], k, v => [(k, v)]
  | (k', v') :: rest, k, v =>
      if k' = k then (k, v) :: rest else (k', v') :: Doc.set rest k v

/-- `true` when the document's field `k` is the string `s` (the shape of
the Mongo filter used by the service for the styles key). -/
def Doc.hasKeyVal (d : Doc) (k s : String) : Bool :=
  match d.get k with
  | some (Val.str t) => t = s
  | _ => false

/-- The document store: six named collections of documents, mirroring
the Mongo database used by `src/main.py`. -/
structure DB where
  era : List Doc
  project : List Doc
  skill : List Doc
  achievement : List Doc
  profile : List Doc
  styles : List Doc

/-- The empty store. -/
def DB.empty : DB :=
  { era := [], project := [], skill := [], achievement := [],
    profile := [], styles := [] }

/-- Read a collection by its name (the six names used by the service). -/
def DB.getColl (db : DB) (c : String) : List Doc :=
  if c = "era" then db.era
  else if c = "project" then db.project
  else if c = "skill" then db.skill
  else if c = "achievement" then db.achievement
  else if c = "profile" then db.profile
  else if c = "styles" then db.styles
  else []

/-- Replace a collection by its name. -/
def DB.setColl (db : DB) (c : String) (l : List Doc) : DB :=
  if c = "era" then { db with era := l }
  else if c = "project" then { db with project := l }
  else if c = "skill" then { db with skill := l }
  else if c = "achievement" then { db with achievement := l }
  else if c = "profile" then { db with profile := l }
  else if c = "styles" then { db with styles := l }
  else db

/-- Modelled from the spec: `create_document` lives in `database.py`,
which is not in the sources; the spec says it inserts the payload
verbatim as a new document into the named collection and returns the
newly generated document identifier (opaque). We return the document's
position in the collection as the identifier. -/
def create_document (db : DB) (c : String) (d : Doc) : Nat × DB :=
  ((db.getColl c).length, db.setColl c (db.getColl c ++ [d]))

/-- Errors surfaced to the HTTP caller: the store handle is absent
(HTTP 500 "Database not available"), or a store operation raised. -/
inductive ApiError where
  | storeUnavailable : ApiError
  | storeOpFailure : String → ApiError
deriving DecidableEq

/-- Body of `set_profile_api` once the store handle is present:
`db["profile"].delete_many({})` then `create_document("profile", data)`. -/
def set_profile_db (db : DB) (payload : Doc) : Nat × DB :=
  create_document { db with profile := [] } "profile" payload

/-- `POST /api/profile` (`set_profile_api` in `src/main.py`): raises 500
when the store handle is absent, otherwise deletes every profile
document and inserts the payload. -/
def set_profile_api (store : Option DB) (payload : Doc) :
    Except ApiError (Nat × DB) :=
  match store with
  | none => Except.error ApiError.storeUnavailable
  | some db => Except.ok (set_profile_db db payload)

/-- Body of `set_styles_api` once the store handle is present:
`delete_many` of the styles documents whose key field is "global",
`payload.data["key"] = "global"`, then insert. -/
def set_styles_db (db : DB) (payload : Doc) : Nat × DB :=
  let db1 := { db with
    styles := db.styles.filter (fun d => !(d.hasKeyVal "key" "global")) }
  create_document db1 "styles" (payload.set "key" (Val.str "global"))

/-- `POST /api/styles` (`set_styles_api` in `src/main.py`). -/
def set_styles_api (store : Option DB) (payload : Doc) :
    Except ApiError (Nat × DB) :=
  match store with
  | none => Except.error ApiError.storeUnavailable
  | some db => Except.ok (set_styles_db db payload)

/-- Modelled from the spec: the create endpoints call
`create_document` from the absent `database.py`; the spec says creation
fails with StoreUnavailable when the store handle is absent. This wraps
the verbatim insert with that check. -/
def create_document_api (store : Option DB) (c : String) (d : Doc) :
    Except ApiError (Nat × DB) :=
  match store with
  | none => Except.error ApiError.storeUnavailable
  | some db => Except.ok (create_document db c d)

/-- The literal styles fallback used by `get_all_content` when the
styles lookup finds nothing or raises. -/
def stylesDefault : Doc :=
  [("key", Val.str "global"), ("theme", Val.str "cyber"),
   ("glow", Val.rat (6/10))]

/-- The content bundle returned by `GET /api/content`. -/
structure Bundle where
  eras : List Doc
  projects : List Doc
  skills : List Doc
  achievements : List Doc
  profile : Option Doc
  styles : Doc

/-- Which store sub-queries raise during `get_all_content`. The five
`get_documents` reads and the styles `find` are issued in program
order; a raising read is modelled by its flag being `true`. -/
structure Faults where
  era : Bool
  project : Bool
  skill : Bool
  achievement : Bool
  profile : Bool
  stylesFind : Bool

/-- No sub-query raises. -/
def Faults.none : Faults :=
  { era := false, project := false, skill := false,
    achievement := false, profile := false, stylesFind := false }

/-- `GET /api/content` (`get_all_content` in `src/main.py`): 500 when
the store handle is absent; otherwise reads the four list collections
and the profile collection (a raising read propagates, in program
order), then looks up the first styles document whose key field is
"global" inside a try/except whose handler — like the missing-document
branch — substitutes the literal default. -/
def get_all_content (store : Option DB) (f : Faults) :
    Except ApiError Bundle :=
  match store with
  | none => Except.error ApiError.storeUnavailable
  | some db =>
      if f.era then Except.error (ApiError.storeOpFailure "era")
      else if f.project then Except.error (ApiError.storeOpFailure "project")
      else if f.skill then Except.error (ApiError.storeOpFailure "skill")
      else if f.achievement then
        Except.error (ApiError.storeOpFailure "achievement")
      else if f.profile then Except.error (ApiError.storeOpFailure "profile")
      else
        let styles :=
          if f.stylesFind then stylesDefault
          else
            match db.styles.find? (fun d => d.hasKeyVal "key" "global") with
            | some d => d
            | Option.none => stylesDefault
        Except.ok
          { eras := db.era, projects := db.project, skills := db.skill,
            achievements := db.achievement, profile := db.profile.head?,
            styles := styles }

/-- The five demo eras inserted by `seed_demo`. -/
def demoEras : List Doc :=
  [ [("key", Val.str "ancient"), ("name", Val.str "Ancient Civilization Era"),
     ("theme", Val.str "ancient"),
     ("description", Val.str "Desert ruins under golden sunlight.")],
    [("key", Val.str "medieval"), ("name", Val.str "Medieval Arcane Era"),
     ("theme", Val.str "medieval"),
     ("description", Val.str "Arcane library of glowing runes.")],
    [("key", Val.str "industrial"), ("name", Val.str "Industrial Revolution"),
     ("theme", Val.str "industrial"),
     ("description", Val.str "Steam, gears and copper pipes.")],
    [("key", Val.str "cyber"), ("name", Val.str "Cyber Age (2080)"),
     ("theme", Val.str "cyber"),
     ("description", Val.str "Neon holographic interfaces.")],
    [("key", Val.str "cosmic"), ("name", Val.str "Cosmic Future"),
     ("theme", Val.str "cosmic"),
     ("description", Val.str "Deep space and energy spheres.")] ]

/-- The five demo projects inserted by `seed_demo`, one per era. -/
def demoProjects : List Doc :=
  [ [("title", Val.str "Solar Cartographer"), ("era_key", Val.str "ancient"),
     ("subtitle", Val.str "Mapping constellations in desert skies"),
     ("description", Val.str "A data-vis project styled as floating artifacts."),
     ("problem", Val.str "Scattered star data."),
     ("solution", Val.str "Unified visual cartography."),
     ("result", Val.str "Faster insights."),
     ("tech_stack", Val.list [Val.str "D3.js", Val.str "Python"]),
     ("media", Val.obj [("image", Val.str ""), ("video", Val.str ""),
                        ("model", Val.str "")])],
    [("title", Val.str "Grimoire Engine"), ("era_key", Val.str "medieval"),
     ("subtitle", Val.str "Generative spellbook UI"),
     ("description", Val.str "Floating spellbooks reveal interactive pages."),
     ("tech_stack", Val.list [Val.str "React", Val.str "Framer Motion"])],
    [("title", Val.str "CopperWorks"), ("era_key", Val.str "industrial"),
     ("subtitle", Val.str "Blueprint renderer"),
     ("description", Val.str "Mechanical blueprints unfold with details."),
     ("tech_stack", Val.list [Val.str "Three.js", Val.str "Node"])],
    [("title", Val.str "Neon Nexus"), ("era_key", Val.str "cyber"),
     ("subtitle", Val.str "Holographic dashboard"),
     ("description", Val.str "Glowing tiles materialize project windows."),
     ("tech_stack", Val.list [Val.str "React", Val.str "WebGL"])],
    [("title", Val.str "Cosmic Lattice"), ("era_key", Val.str "cosmic"),
     ("subtitle", Val.str "Orbital knowledge base"),
     ("description", Val.str "Energy spheres open cosmic info panels."),
     ("tech_stack", Val.list [Val.str "Three.js", Val.str "GSAP"])] ]

/-- The three demo skills inserted by `seed_demo`. -/
def demoSkills : List Doc :=
  [ [("name", Val.str "React"), ("level", Val.int 90),
     ("category", Val.str "Frontend"), ("icon", Val.str "Atom")],
    [("name", Val.str "Three.js"), ("level", Val.int 80),
     ("category", Val.str "3D"), ("icon", Val.str "Cube")],
    [("name", Val.str "FastAPI"), ("level", Val.int 85),
     ("category", Val.str "Backend"), ("icon", Val.str "Server")] ]

/-- The single demo achievement inserted by `seed_demo`. -/
def demoAchievements : List Doc :=
  [ [("title", Val.str "Hackathon Winner"),
     ("description", Val.str "Built an AR prototype in 24h"),
     ("year", Val.int 2023), ("capsule", Val.str "orbit")] ]

/-- The demo profile document inserted by `seed_demo`. -/
def demoProfile : Doc :=
  [("name", Val.str "The Time Traveler"),
   ("role", Val.str "Creative Technologist"),
   ("photo_url", Val.str ""),
   ("bio", Val.str "Jumping across eras to craft immersive experiences."),
   ("timeline", Val.list
     [ Val.obj [("year", Val.int 2018), ("title", Val.str "First Expedition"),
                ("text", Val.str "Discovered the Ancient Codex")],
       Val.obj [("year", Val.int 2022), ("title", Val.str "Cyber Age"),
                ("text", Val.str "Built neon universes")] ]),
   ("links", Val.list
     [ Val.obj [("label", Val.str "GitHub"),
                ("url", Val.str "https://github.com/")],
       Val.obj [("label", Val.str "LinkedIn"),
                ("url", Val.str "https://linkedin.com/")] ])]

/-- The demo global styles document written by `seed_demo`. -/
def demoStyles : Doc :=
  [("key", Val.str "global"), ("theme", Val.str "cyber"),
   ("glow", Val.rat (7/10))]

/-- `POST /api/seed` (`seed_demo` in `src/main.py`): 500 when the store
handle is absent; short-circuits to "already-seeded" when the era
collection is non-empty; otherwise inserts the demo eras, projects,
skills, achievements and profile via `create_document` in program
order, deletes the styles documents with key "global", inserts the demo
styles document and returns "seeded". -/
def seed_demo (store : Option DB) : Except ApiError (String × DB) :=
  match store with
  | none => Except.error ApiError.storeUnavailable
  | some db =>
      if db.era.length > 0 then Except.ok ("already-seeded", db)
      else
        let db := demoEras.foldl (fun d e => (create_document d "era" e).2) db
        let db := demoProjects.foldl
          (fun d p => (create_document d "project" p).2) db
        let db := demoSkills.foldl
          (fun d s => (create_document d "skill" s).2) db
        let db := demoAchievements.foldl
          (fun d a => (create_document d "achievement" a).2) db
        let db := (create_document db "profile" demoProfile).2
        let db := { db with
          styles := db.styles.filter (fun d => !(d.hasKeyVal "key" "global")) }
        let db := (create_document db "styles" demoStyles).2
        Except.ok ("seeded", db)

/-- The report returned by `GET /test` (`test_database`). -/
structure HealthReport where
  backend : String
  database : String
  database_url : Option String
  database_name : Option String
  connection_status : String
  collections : List String

/-- `GET /test` (`test_database` in `src/main.py`): builds the degraded
base report, upgrades its fields when the store handle is present
(`urlSet` models whether the DATABASE_URL environment variable is set,
`dbName` the handle's name attribute when it has one), then tries
`list_collection_names` — modelled by `colls`, an error value standing
for a raised exception whose message is truncated to 50 characters in
the degraded status text. -/
def test_database (store : Option DB) (urlSet : Bool)
    (dbName : Option String) (colls : Except String (List String)) :
    HealthReport :=
  match store with
  | none =>
      { backend := "✅ Running",
        database := "⚠️  Available but not initialized",
        database_url := Option.none, database_name := Option.none,
        connection_status := "Not Connected", collections := [] }
  | some _ =>
      let base : HealthReport :=
        { backend := "✅ Running", database := "✅ Available",
          database_url := some (if urlSet then "✅ Set" else "❌ Not Set"),
          database_name := some (dbName.getD "✅ Connected"),
          connection_status := "Connected", collections := [] }
      match colls with
      | Except.ok cs =>
          { base with collections := cs.take 10,
                      database := "✅ Connected & Working" }
      | Except.error e =>
          { base with
              database := "⚠️  Connected but Error: " ++ e.take 50 }

/-- The store produced by seeding the empty store. -/
def seededDB : DB :=
  { era := demoEras, project := demoProjects, skill := demoSkills,
    achievement := demoAchievements, profile := [demoProfile],
    styles := [demoStyles] }

/-- A store with one pre-existing project and an empty era collection. -/
def dbOneProject : DB :=
  { DB.empty with project := [[("title", Val.str "Legacy")]] }

/-- Fault pattern: only the styles find raises. -/
def faultsOnlyStyles : Faults := { Faults.none with stylesFind := true }

/-- The level bound declared by the Skill schema in `src/schemas.py`
(integer between 0 and 100). -/
def skillLevelInRange (d : Doc) : Bool :=
  match d.get "level" with
  | some (Val.int n) => decide (0 ≤ n ∧ n ≤ 100)
  | _ => false

/-- A skill payload whose level violates the declared 0..100 bound. -/
def outOfRangeSkill : Doc :=
  [("name", Val.str "Go"), ("level", Val.int 170)]

/-- A styles document stored under a non-global key. -/
def accentStyles : Doc :=
  [("key", Val.str "accent"), ("theme", Val.str "noir")]

/-- A store holding only that non-global styles document. -/
def dbAccent : DB := { DB.empty with styles := [accentStyles] }

/-- A store with one pre-existing profile and an empty era collection. -/
def dbOneProfile : DB :=
  { DB.empty with profile := [[("name", Val.str "Old Profile")]] }

/-! ### Helper lemmas -/

theorem create_document_era (db : DB) (e : Doc) :
    create_document db "era" e
      = (db.era.length, { db with era := db.era ++ [e] }) := rfl

theorem create_document_project (db : DB) (e : Doc) :
    create_document db "project" e
      = (db.project.length, { db with project := db.project ++ [e] }) := rfl

theorem create_document_skill (db : DB) (e : Doc) :
    create_document db "skill" e
      = (db.skill.length, { db with skill := db.skill ++ [e] }) := rfl

theorem create_document_achievement (db : DB) (e : Doc) :
    create_document db "achievement" e
      = (db.achievement.length, { db with achievement := db.achievement ++ [e] }) := rfl

theorem create_document_profile (db : DB) (e : Doc) :
    create_document db "profile" e
      = (db.profile.length, { db with profile := db.profile ++ [e] }) := rfl

theorem create_document_styles (db : DB) (e : Doc) :
    create_document db "styles" e
      = (db.styles.length, { db with styles := db.styles ++ [e] }) := rfl

theorem foldl_create_era (l : List Doc) (db : DB) :
    List.foldl (fun d e => (create_document d "era" e).2) db l
      = { db with era := db.era ++ l } := by
  induction l generalizing db with
  | nil => simp
  | cons e t ih =>
      rw [List.foldl_cons, create_document_era]
      simp [ih]

theorem foldl_create_project (l : List Doc) (db : DB) :
    List.foldl (fun d e => (create_document d "project" e).2) db l
      = { db with project := db.project ++ l } := by
  induction l generalizing db with
  | nil => simp
  | cons e t ih =>
      rw [List.foldl_cons, create_document_project]
      simp [ih]

theorem foldl_create_skill (l : List Doc) (db : DB) :
    List.foldl (fun d e => (create_document d "skill" e).2) db l
      = { db with skill := db.skill ++ l } := by
  induction l generalizing db with
  | nil => simp
  | cons e t ih =>
      rw [List.foldl_cons, create_document_skill]
      simp [ih]

theorem foldl_create_achievement (l : List Doc) (db : DB) :
    List.foldl (fun d e => (create_document d "achievement" e).2) db l
      = { db with achievement := db.achievement ++ l } := by
  induction l generalizing db with
  | nil => simp
  | cons e t ih =>
      rw [List.foldl_cons, create_document_achievement]
      simp [ih]

theorem Doc.get_set_self (d : Doc) (k : String) (v : Val) :
    (Doc.set d k v).get k = some v := by
  induction d with
  | nil => simp [Doc.set, Doc.get]
  | cons p rest ih =>
      by_cases h : p.1 = k
      · simp [Doc.set, h, Doc.get]
      · simpa [Doc.set, h, Doc.get, List.find?] using ih

/-- Net effect of `seed_demo` on an era-empty store. -/
theorem seed_demo_eq_of_era_empty (db : DB) (he : db.era = []) :
    seed_demo (some db) = Except.ok ("seeded",
      { era := demoEras,
        project := db.project ++ demoProjects,
        skill := db.skill ++ demoSkills,
        achievement := db.achievement ++ demoAchievements,
        profile := db.profile ++ [demoProfile],
        styles := db.styles.filter (fun d => !(d.hasKeyVal "key" "global"))
          ++ [demoStyles] }) := by
  rw [seed_demo]
  simp only [he, List.length_nil, gt_iff_lt, lt_self_iff_false, if_false]
  rw [foldl_create_era, foldl_create_project, foldl_create_skill,
    foldl_create_achievement, create_document_profile]
  simp [he, create_document_styles]

/-- A successful `seed_demo` call either leaves the store untouched
(already seeded) or ends with the demo styles replacement. -/
theorem seed_demo_result_cases (db db' : DB) (s : String)
    (h : seed_demo (some db) = Except.ok (s, db')) :
    (s = "already-seeded" ∧ db' = db) ∨
    (s = "seeded" ∧ db'.styles
      = db.styles.filter (fun d => !(d.hasKeyVal "key" "global"))
        ++ [demoStyles]) := by
  by_cases hlen : db.era = []
  · right
    rw [seed_demo_eq_of_era_empty db hlen] at h
    cases h
    exact ⟨rfl, rfl⟩
  · left
    rw [seed_demo] at h
    have : 0 < db.era.length := List.length_pos.mpr hlen
    simp only [gt_iff_lt, this, if_true] at h
    cases h
    exact ⟨rfl, rfl⟩

theorem foldl_set_profile_cons (p : Doc) (ps : List Doc) (db : DB) :
    (List.foldl (fun d q => (set_profile_db d q).2) db (p :: ps)).profile
      = [(p :: ps).getLast (List.cons_ne_nil p ps)] := by
  induction ps generalizing p db with
  | nil => rfl
  | cons q t ih =>
      rw [List.foldl_cons, List.getLast_cons (List.cons_ne_nil q t)]
      exact ih q ((set_profile_db db p).2)

/-! ### Claim theorems -/

/-- C1: every `set_profile` call on an available store first deletes all
profile documents and then inserts the payload, leaving the profile
collection equal to the singleton of the payload; hence after any
non-empty sequence of sequential `set_profile` calls the profile
collection holds exactly one document. -/
theorem set_profile_singleton_invariant (db : DB) (ps : List Doc)
    (h : ps ≠ []) :
    (∀ p, (set_profile_db db p).2.profile = [p]) ∧
    (List.foldl (fun d q => (set_profile_db d q).2) db ps).profile.length
      = 1 := by
  obtain ⟨p, t, rfl⟩ := List.exists_cons_of_ne_nil h
  refine ⟨fun p => rfl, ?_⟩
  rw [foldl_set_profile_cons]
  rfl

theorem set_profile_singleton_invariant_witness :
    ([[("name", Val.str "Ada")], [("name", Val.str "Grace")]] : List Doc)
      ≠ [] ∧
    (List.foldl (fun d q => (set_profile_db d q).2) DB.empty
      [[("name", Val.str "Ada")], [("name", Val.str "Grace")]]).profile.length
      = 1 :=
  ⟨by simp,
   (set_profile_singleton_invariant DB.empty
     [[("name", Val.str "Ada")], [("name", Val.str "Grace")]] (by simp)).2⟩

/-- C2: `set_styles` deletes the styles documents whose key field is
"global", overwrites the payload's key with "global" and inserts it, so
the stored document's key field is "global" regardless of the
caller-supplied key. -/
theorem set_styles_key_pinned (db : DB) (p : Doc) :
    ∃ stored : Doc,
      (set_styles_db db p).2.styles
        = db.styles.filter (fun d => !(d.hasKeyVal "key" "global"))
            ++ [stored]
      ∧ stored = Doc.set p "key" (Val.str "global")
      ∧ stored.get "key" = some (Val.str "global") :=
  ⟨Doc.set p "key" (Val.str "global"), rfl, rfl, Doc.get_set_self p _ _⟩

/-- C3: `seed_demo` short-circuits with "already-seeded" and no writes
whenever the era collection is non-empty, so a second call after a
seeding pass from an era-empty store reports "already-seeded" and
leaves the store (in particular the era count) unchanged. -/
theorem seed_demo_idempotent (db : DB) :
    (db.era ≠ [] → seed_demo (some db) = Except.ok ("already-seeded", db)) ∧
    (db.era = [] → ∀ s1 db1, seed_demo (some db) = Except.ok (s1, db1) →
      s1 = "seeded" ∧
      seed_demo (some db1) = Except.ok ("already-seeded", db1)) := by
  constructor
  · intro hne
    rw [seed_demo]
    simp [List.length_pos.mpr hne]
  · intro he s1 db1 h
    rw [seed_demo_eq_of_era_empty db he] at h
    simp only [Except.ok.injEq, Prod.mk.injEq] at h
    obtain ⟨hs, hdb⟩ := h
    subst hdb
    refine ⟨hs.symm, ?_⟩
    rw [seed_demo]
    simp [demoEras]

theorem seed_demo_idempotent_witness :
    seed_demo (some seededDB) = Except.ok ("already-seeded", seededDB) :=
  ((seed_demo_idempotent DB.empty).2 rfl "seeded" seededDB (by rfl)).2

/-- C4: when the era collection is empty — whatever the other
collections hold — `seed_demo` returns "seeded", inserts 5 eras,
5 projects, 3 skills, 1 achievement and 1 profile, and replaces the
"global" styles document with the demo styles document. -/
theorem seed_demo_seeds_when_era_empty (db : DB) (he : db.era = []) :
    ∃ db', seed_demo (some db) = Except.ok ("seeded", db')
      ∧ db'.era.length = 5
      ∧ db'.project.length = db.project.length + 5
      ∧ db'.skill.length = db.skill.length + 3
      ∧ db'.achievement.length = db.achievement.length + 1
      ∧ db'.profile.length = db.profile.length + 1
      ∧ db'.styles
          = db.styles.filter (fun d => !(d.hasKeyVal "key" "global"))
              ++ [demoStyles] := by
  refine ⟨_, seed_demo_eq_of_era_empty db he, ?_, ?_, ?_, ?_, ?_, rfl⟩ <;>
    simp [demoEras, demoProjects, demoSkills, demoAchievements]

theorem seed_demo_seeds_witness :
    ∃ db', seed_demo (some dbOneProject) = Except.ok ("seeded", db')
      ∧ db'.project.length = 6 := by
  obtain ⟨db', h, _, hp, _⟩ := seed_demo_seeds_when_era_empty dbOneProject rfl
  exact ⟨db', h, by simpa [dbOneProject, DB.empty] using hp⟩

/-- C5: with the five collection reads succeeding, `get_all_content`
returns a bundle even when the styles lookup raises, and the bundle's
styles field is the literal default whenever the lookup raised or found
no "global" document; a raising era, project, skill or achievement read
propagates as an error. -/
theorem get_all_content_styles_fallback (db : DB) (f : Faults) :
    (f.era = false → f.project = false → f.skill = false →
     f.achievement = false → f.profile = false →
      ∃ b : Bundle, get_all_content (some db) f = Except.ok b ∧
        ((f.stylesFind = true ∨
          db.styles.find? (fun d => d.hasKeyVal "key" "global")
            = Option.none) →
          b.styles = stylesDefault)) ∧
    (f.era = true → get_all_content (some db) f
      = Except.error (ApiError.storeOpFailure "era")) ∧
    (f.era = false → f.project = true → get_all_content (some db) f
      = Except.error (ApiError.storeOpFailure "project")) ∧
    (f.era = false → f.project = false → f.skill = true →
      get_all_content (some db) f
        = Except.error (ApiError.storeOpFailure "skill")) ∧
    (f.era = false → f.project = false → f.skill = false →
     f.achievement = true → get_all_content (some db) f
        = Except.error (ApiError.storeOpFailure "achievement")) := by
  refine ⟨?_, ?_, ?_, ?_, ?_⟩
  · intro h1 h2 h3 h4 h5
    simp only [get_all_content, h1, h2, h3, h4, h5, Bool.false_eq_true,
      if_false]
    refine ⟨_, rfl, ?_⟩
    rintro (hf | hf)
    · simp [hf]
    · cases hsf : f.stylesFind
      · simp [hsf, hf]
      · simp [hsf]
  · intro h1
    simp [get_all_content, h1]
  · intro h1 h2
    simp [get_all_content, h1, h2]
  · intro h1 h2 h3
    simp [get_all_content, h1, h2, h3]
  · intro h1 h2 h3 h4
    simp [get_all_content, h1, h2, h3, h4]

theorem get_all_content_styles_fallback_witness :
    ∃ b : Bundle,
      get_all_content (some DB.empty) faultsOnlyStyles = Except.ok b ∧
      b.styles = stylesDefault := by
  obtain ⟨b, hb, hs⟩ :=
    (get_all_content_styles_fallback DB.empty faultsOnlyStyles).1
      rfl rfl rfl rfl rfl
  exact ⟨b, hb, hs (Or.inl rfl)⟩

/-- C6: with the store handle absent every data operation fails with
the StoreUnavailable error, while the health endpoint still returns its
report. -/
theorem store_absent_all_data_ops_fail (f : Faults) (c : String) (d : Doc)
    (urlSet : Bool) (dbName : Option String)
    (colls : Except String (List String)) :
    get_all_content Option.none f
      = Except.error ApiError.storeUnavailable ∧
    create_document_api Option.none c d
      = Except.error ApiError.storeUnavailable ∧
    set_profile_api Option.none d
      = Except.error ApiError.storeUnavailable ∧
    set_styles_api Option.none d
      = Except.error ApiError.storeUnavailable ∧
    seed_demo Option.none = Except.error ApiError.storeUnavailable ∧
    (test_database Option.none urlSet dbName colls).backend
      = "✅ Running" ∧
    (test_database Option.none urlSet dbName colls).connection_status
      = "Not Connected" :=
  ⟨rfl, rfl, rfl, rfl, rfl, rfl, rfl⟩

/-- C7: `test_database` is a total function to a complete report — it
cannot raise — its collections list never exceeds 10 names, and a
raising `list_collection_names` only degrades the database status text
(message truncated to 50 characters) instead of failing. -/
theorem test_database_never_fails (store : Option DB) (urlSet : Bool)
    (dbName : Option String) (colls : Except String (List String)) :
    (test_database store urlSet dbName colls).collections.length ≤ 10 ∧
    (test_database store urlSet dbName colls).backend = "✅ Running" ∧
    (∀ db e,
      (test_database (some db) urlSet dbName (Except.error e)).database
        = "⚠️  Connected but Error: " ++ e.take 50) ∧
    (∀ db e,
      (test_database (some db) urlSet dbName
        (Except.error e)).connection_status = "Connected") := by
  refine ⟨?_, ?_, fun db e => rfl, fun db e => rfl⟩
  · cases store with
    | none => simp [test_database]
    | some db =>
        cases colls with
        | ok cs => simp [test_database]
        | error e => simp [test_database]
  · cases store with
    | none => rfl
    | some db => cases colls <;> rfl

/-- C8: `create_document` appends the caller's payload verbatim to the
named collection and reports the generated identifier, with no shape
validation: any mapping, valid against the schemas or not, is stored
as given. -/
theorem create_document_verbatim (db : DB) (c : String) (d : Doc)
    (hc : c ∈ (["era", "project", "skill", "achievement", "profile",
      "styles"] : List String)) :
    ∃ i db', create_document_api (some db) c d = Except.ok (i, db')
      ∧ db'.getColl c = db.getColl c ++ [d] := by
  refine ⟨(db.getColl c).length, _, rfl, ?_⟩
  simp only [List.mem_cons, List.mem_singleton, List.not_mem_nil,
    or_false] at hc
  rcases hc with rfl | rfl | rfl | rfl | rfl | rfl <;> rfl

theorem create_document_verbatim_witness :
    skillLevelInRange outOfRangeSkill = false ∧
    ∃ i db',
      create_document_api (some DB.empty) "skill" outOfRangeSkill
        = Except.ok (i, db')
      ∧ db'.getColl "skill"
          = DB.empty.getColl "skill" ++ [outOfRangeSkill] :=
  ⟨rfl, create_document_verbatim DB.empty "skill" outOfRangeSkill (by simp)⟩

/-- C9: a styles document whose key field is not "global" survives both
`set_styles` and any successful `seed_demo` call: the deletions in both
paths only match key="global". -/
theorem styles_non_global_preserved (db : DB) (p d : Doc)
    (hd : d ∈ db.styles) (hng : d.hasKeyVal "key" "global" = false) :
    d ∈ (set_styles_db db p).2.styles ∧
    (∀ s db', seed_demo (some db) = Except.ok (s, db') →
      d ∈ db'.styles) := by
  have hfilt : d ∈ db.styles.filter (fun x => !(x.hasKeyVal "key" "global")) :=
    List.mem_filter.mpr ⟨hd, by simp [hng]⟩
  constructor
  · have hstyles : (set_styles_db db p).2.styles
        = db.styles.filter (fun x => !(x.hasKeyVal "key" "global"))
            ++ [Doc.set p "key" (Val.str "global")] := rfl
    rw [hstyles]
    exact List.mem_append.mpr (Or.inl hfilt)
  · intro s db' h
    rcases seed_demo_result_cases db db' s h with ⟨_, rfl⟩ | ⟨_, hst⟩
    · exact hd
    · rw [hst]
      exact List.mem_append.mpr (Or.inl hfilt)

theorem styles_non_global_preserved_witness :
    accentStyles ∈ (set_styles_db dbAccent ([] : Doc)).2.styles :=
  (styles_non_global_preserved dbAccent ([] : Doc) accentStyles
    (by simp [dbAccent, DB.empty]) rfl).1

/-- C10: `seed_demo`'s profile step inserts the demo profile without a
prior delete, so with era empty and at least one pre-existing profile
document the profile collection afterwards holds more than one
document. -/
theorem seed_demo_duplicates_profile (db : DB) (he : db.era = [])
    (hp : db.profile ≠ []) :
    ∃ db', seed_demo (some db) = Except.ok ("seeded", db')
      ∧ 1 < db'.profile.length := by
  refine ⟨_, seed_demo_eq_of_era_empty db he, ?_⟩
  have hl : 0 < db.profile.length := List.length_pos.mpr hp
  show 1 < (db.profile ++ [demoProfile]).length
  rw [List.length_append]
  simp only [List.length_singleton]
  omega

theorem seed_demo_duplicates_profile_witness :
    ∃ db', seed_demo (some dbOneProfile) = Except.ok ("seeded", db')
      ∧ 1 < db'.profile.length :=
  seed_demo_duplicates_profile dbOneProfile rfl
    (by simp [dbOneProfile, DB.empty])
